import Mathlib

/-!
# comparisons/apache_fake.go

A shallow embedding of the fake-Apache benchmark server: the package variable
`helloWorld`, the handler `apacheFakeHandler`, and the part of Go's `net/http`
interface the handler talks to (`http.Header`, `http.ResponseWriter`).

Go strings are modelled as Lean strings, byte slices as lists of naturals
below 256, and the response writer as a record that logs what the handler
hands to it.
-/

namespace ApacheFake

/-! ## Byte slices -/

/-- The bytes of the Go conversion `[]byte(s)`: the UTF-8 encoding of `s`. -/
def bytesOf (s : String) : List Nat :=
  s.toList.flatMap (fun c => (String.utf8EncodeChar c).map UInt8.toNat)

/-! ## net/textproto: canonical header keys -/

/-- Go's `validHeaderFieldByte`: the RFC 7230 token characters, the only bytes
a header key may hold for `CanonicalMIMEHeaderKey` to re-case it. -/
def validHeaderFieldByte (c : Char) : Bool :=
  let n := c.toNat
  (48 ≤ n && n ≤ 57) || (65 ≤ n && n ≤ 90) || (97 ≤ n && n ≤ 122) ||
    [33, 35, 36, 37, 38, 39, 42, 43, 45, 46, 94, 95, 96, 124, 126].contains n

/-- The re-casing loop of Go's `canonicalMIMEHeaderKey`: the first letter and
every letter after a hyphen become upper case, every other letter lower case.
The flag `upper` says whether the next byte starts a word. -/
def recase : Bool → List Char → List Char
  | _, [] => []
  | upper, c :: cs =>
    let c1 :=
      if upper && decide (97 ≤ c.toNat ∧ c.toNat ≤ 122) then Char.ofNat (c.toNat - 32)
      else if !upper && decide (65 ≤ c.toNat ∧ c.toNat ≤ 90) then Char.ofNat (c.toNat + 32)
      else c
    c1 :: recase (c1 == '-') cs

/-- Go's `textproto.CanonicalMIMEHeaderKey`: a key made of token bytes only is
re-cased, any other key is returned unchanged. (Go releases differ on keys
that hold a space or another non-token byte; on keys of letters, digits and
hyphens, such as the eight the handler uses, they all agree.) -/
def CanonicalMIMEHeaderKey (s : String) : String :=
  if s.toList.all validHeaderFieldByte then String.mk (recase true s.toList) else s

/-! ## net/http: the header map -/

/-- Go's `http.Header`, a `map[string][]string`, as an association list. A key
is looked up at its first entry; assignment leaves one entry for the key. -/
structure Header where
  entries : List (String × List String)
deriving DecidableEq, Repr

namespace Header

/-- The empty header map. -/
def empty : Header := ⟨[]⟩

/-- The values of the first entry of `key` in an entry list. -/
def lookupEntries : List (String × List String) → String → Option (List String)
  | [], _ => none
  | e :: rest, key => if e.1 = key then some e.2 else lookupEntries rest key

/-- An entry list without the entries of `key`. -/
def eraseKey : List (String × List String) → String → List (String × List String)
  | [], _ => []
  | e :: rest, key => if e.1 = key then eraseKey rest key else e :: eraseKey rest key

/-- The map read `h[key]`: the values stored under exactly this key. -/
def lookup (h : Header) (key : String) : Option (List String) :=
  lookupEntries h.entries key

/-- The map write `h[key] = vs`: every older entry of the key is replaced. -/
def assign (h : Header) (key : String) (vs : List String) : Header :=
  ⟨eraseKey h.entries key ++ [(key, vs)]⟩

/-- Go's `Header.Set`: the key is canonicalised, then the single value replaces
whatever the canonical key held. -/
def Set (h : Header) (key value : String) : Header :=
  h.assign (CanonicalMIMEHeaderKey key) [value]

/-- Go's `Header.Values`: the values stored under the canonical form of `key`. -/
def Values (h : Header) (key : String) : List String :=
  (h.lookup (CanonicalMIMEHeaderKey key)).getD []

/-- Go's `Header.Get`: the first value under the canonical form of `key`, or
the empty string. -/
def Get (h : Header) (key : String) : String :=
  (h.Values key).headD ""

/-- The keys stored in the map, one per entry. -/
def keys (h : Header) : List String :=
  h.entries.map Prod.fst

/-- The header lines of the wire format, `key: value` and CRLF, one for each
stored value under the key as stored. The order of the lines is that of the
association list and carries no meaning. -/
def wireLines (h : Header) : List String :=
  h.entries.flatMap (fun e => e.2.map (fun v => e.1 ++ ": " ++ v ++ "\r\n"))

end Header

/-! ## net/http: requests and the response writer -/

/-- The parts of Go's `http.Request` a handler can look at. -/
structure Request where
  method : String
  path : String
  header : Header
  body : List Nat
deriving DecidableEq, Repr

/-- The state behind Go's `http.ResponseWriter` interface. `header` is the live
map returned by `Header()`; `wroteHeader`, `status` and `sent` record the
commit of the response head (`sent` is the snapshot of `header` taken then);
`written` logs the argument of every `Write` call in order. -/
structure ResponseWriter where
  header : Header
  wroteHeader : Bool
  status : Nat
  sent : Header
  written : List (List Nat)
deriving DecidableEq, Repr

namespace ResponseWriter

/-- A response that has not been committed, whose header map is `h`. -/
def fresh (h : Header) : ResponseWriter :=
  { header := h, wroteHeader := false, status := 0, sent := Header.empty, written := [] }

/-- Go's `WriteHeader(code)`: the first call fixes the status and the headers
that are sent; a later call changes nothing. -/
def WriteHeader (w : ResponseWriter) (code : Nat) : ResponseWriter :=
  if w.wroteHeader then w
  else { w with wroteHeader := true, status := code, sent := w.header }

/-- Go's `Write(data)`: if the head is not committed yet it is committed with
status 200 first, then the data joins the body. What the server does with the
data afterwards (framing, connection handling) is outside the model. -/
def Write (w : ResponseWriter) (data : List Nat) : ResponseWriter :=
  let w1 := if w.wroteHeader then w else w.WriteHeader 200
  { w1 with written := w1.written ++ [data] }

/-- The body bytes handed to the writer so far. -/
def body (w : ResponseWriter) : List Nat :=
  w.written.flatten

end ResponseWriter

/-! ## The program -/

/-- The initial value of the package variable `helloWorld`. -/
def helloWorld : List Nat :=
  bytesOf "<html><body><h1>It works!</h1>\n<p>This is the default web page for this server.</p>\n<p>The web server software is running but no content has been added, yet.</p>\n</body></html>\n"

/-- The package-level variables of the program: `helloWorld` is a `var`, so it
is part of the mutable state. -/
structure Globals where
  helloWorld : List Nat
deriving DecidableEq, Repr

/-- The package state after initialisation. -/
def Globals.init : Globals := ⟨ApacheFake.helloWorld⟩

/-- The program state a handler invocation runs in: the package variables and
the response writer it was given. -/
structure State where
  globals : Globals
  w : ResponseWriter
deriving DecidableEq, Repr

/-- The two kinds of statement in the body of `apacheFakeHandler`. -/
inductive Stmt where
  /-- The statement `w.Header().Set(key, value)`. -/
  | headerSet (key value : String)
  /-- The statement `w.Write(helloWorld)`. -/
  | writeHelloWorld
deriving DecidableEq, Repr

/-- The effect of one statement on the program state. -/
def Stmt.exec (s : State) : Stmt → State
  | .headerSet key value => { s with w := { s.w with header := s.w.header.Set key value } }
  | .writeHelloWorld => { s with w := s.w.Write s.globals.helloWorld }

/-- Whether a statement is a header assignment. -/
def Stmt.isHeaderSet : Stmt → Bool
  | .headerSet _ _ => true
  | .writeHelloWorld => false

/-- Whether a statement is a body write. -/
def Stmt.isWrite : Stmt → Bool
  | .headerSet _ _ => false
  | .writeHelloWorld => true

/-- The statements of `apacheFakeHandler`, in program order. -/
def apacheFakeHandlerBody : List Stmt :=
  [ .headerSet "Content-Type" "text/html",
    .headerSet "Server" "Apache/2.2.22 (Ubuntu)",
    .headerSet "Last-Modified" "Thu, 05 May 2011 11:46:42 GMT",
    .headerSet "ETag" "\"501b29-b1-4a285ed47404a\"",
    .headerSet "Accept-Ranges" "bytes",
    .headerSet "Content-Length" "177",
    .headerSet "Vary" "Accept-Encoding",
    .headerSet "X-Pad" "avoid browser bug",
    .writeHelloWorld ]

/-- The state after running the first `n` statements of the handler. -/
def runFirst (n : Nat) (s : State) : State :=
  (apacheFakeHandlerBody.take n).foldl Stmt.exec s

/-- The handler `apacheFakeHandler(w, r)`: it runs its statements in order on
the package state and the writer; the request `r` is never read. -/
def apacheFakeHandler (g : Globals) (w : ResponseWriter) (_r : Request) : Globals × ResponseWriter :=
  let s := apacheFakeHandlerBody.foldl Stmt.exec ⟨g, w⟩
  (s.globals, s.w)

/-- A sequence of handler invocations, each with its own writer and request,
threading the package state from one to the next. -/
def invocations (g : Globals) : List (ResponseWriter × Request) → Globals × List ResponseWriter
  | [] => (g, [])
  | (w, r) :: rest =>
    let out := apacheFakeHandler g w r
    let tail := invocations out.1 rest
    (tail.1, out.2 :: tail.2)

/-- The response left behind by one invocation whose writer starts uncommitted
with header map `h`. -/
def response (g : Globals) (h : Header) (r : Request) : ResponseWriter :=
  (apacheFakeHandler g (ResponseWriter.fresh h) r).2

/-- The header map after the eight assignments of the handler, starting from `h`. -/
def afterSets (h : Header) : Header :=
  (((((((h.Set "Content-Type" "text/html").Set "Server" "Apache/2.2.22 (Ubuntu)").Set
    "Last-Modified" "Thu, 05 May 2011 11:46:42 GMT").Set "ETag" "\"501b29-b1-4a285ed47404a\"").Set
    "Accept-Ranges" "bytes").Set "Content-Length" "177").Set "Vary" "Accept-Encoding").Set
    "X-Pad" "avoid browser bug"

/-- A plain `GET /` request without headers or body. -/
def getRoot : Request := ⟨"GET", "/", Header.empty, []⟩

/-! ## The specification's constants -/

/-- The header names and values of spec section 6, spelled as the spec spells
them. -/
def specHeaders : List (String × String) :=
  [ ("Content-Type", "text/html"),
    ("Server", "Apache/2.2.22 (Ubuntu)"),
    ("Last-Modified", "Thu, 05 May 2011 11:46:42 GMT"),
    ("ETag", "\"501b29-b1-4a285ed47404a\""),
    ("Accept-Ranges", "bytes"),
    ("Content-Length", "177"),
    ("Vary", "Accept-Encoding"),
    ("X-Pad", "avoid browser bug") ]

/-- The keys under which `Header.Set` files the eight names. -/
def storedKeys : List String :=
  specHeaders.map (fun e => CanonicalMIMEHeaderKey e.1)

/-- The eight entries as the header map stores them: canonical key, one value. -/
def storedEntries : List (String × List String) :=
  specHeaders.map (fun e => (CanonicalMIMEHeaderKey e.1, [e.2]))

/-- An entry list without the entries of any of the keys `ks`. -/
def eraseKeys (l : List (String × List String)) (ks : List String) : List (String × List String) :=
  ks.foldl Header.eraseKey l

/-- The body text of spec section 6, line by line. -/
def specBodyLines : List String :=
  [ "<html><body><h1>It works!</h1>",
    "<p>This is the default web page for this server.</p>",
    "<p>The web server software is running but no content has been added, yet.</p>",
    "</body></html>" ]

/-- The body bytes of spec section 6: every line followed by one LF byte. -/
def specBody : List Nat :=
  specBodyLines.flatMap (fun l => bytesOf l ++ [10])

/-! ## Reading numbers and dates out of header values -/

/-- The value of a decimal digit. -/
def digitValue (c : Char) : Option Nat :=
  if 48 ≤ c.toNat ∧ c.toNat ≤ 57 then some (c.toNat - 48) else none

/-- The value of a hexadecimal digit, either case. -/
def hexDigitValue (c : Char) : Option Nat :=
  if 48 ≤ c.toNat ∧ c.toNat ≤ 57 then some (c.toNat - 48)
  else if 97 ≤ c.toNat ∧ c.toNat ≤ 102 then some (c.toNat - 87)
  else if 65 ≤ c.toNat ∧ c.toNat ≤ 70 then some (c.toNat - 55)
  else none

/-- Positional reading of digits in a base, most significant first. -/
def readDigits (base : Nat) (digit : Char → Option Nat) : Nat → List Char → Option Nat
  | acc, [] => some acc
  | acc, c :: cs =>
    match digit c with
    | some d => readDigits base digit (acc * base + d) cs
    | none => none

/-- A non-empty string of decimal digits read as a number. -/
def parseDecimal (cs : List Char) : Option Nat :=
  if cs.isEmpty then none else readDigits 10 digitValue 0 cs

/-- A non-empty string of hexadecimal digits read as a number. -/
def parseHex (cs : List Char) : Option Nat :=
  if cs.isEmpty then none else readDigits 16 hexDigitValue 0 cs

/-- The fields of a character list separated by `sep`. -/
def splitOn (sep : Char) : List Char → List (List Char)
  | [] => [[]]
  | c :: cs =>
    if c = sep then [] :: splitOn sep cs
    else
      match splitOn sep cs with
      | [] => [[c]]
      | f :: fs => (c :: f) :: fs

/-- The hyphen-separated fields of an entity tag of the form `"a-b-c"`; `none`
when the value is not enclosed in double quotes. -/
def etagFields (v : String) : Option (List (List Char)) :=
  match v.toList with
  | [] => none
  | q :: rest =>
    match rest.reverse with
    | [] => none
    | q2 :: inner =>
      if q = Char.ofNat 34 ∧ q2 = Char.ofNat 34 then some (splitOn '-' inner.reverse) else none

/-- A date as an HTTP date header names it. -/
structure HTTPDate where
  weekday : String
  day : Nat
  month : Nat
  year : Nat
  hour : Nat
  minute : Nat
  second : Nat
deriving DecidableEq, Repr

/-- The number of a month from its three-letter English name. -/
def monthNumber (m : String) : Option Nat :=
  let names := ["Jan", "Feb", "Mar", "Apr", "May", "Jun", "Jul", "Aug", "Sep", "Oct", "Nov", "Dec"]
  if names.contains m then some (names.indexOf m + 1) else none

/-- Reads a date of the form `Thu, 05 May 2011 11:46:42 GMT`. -/
def parseHTTPDate (v : String) : Option HTTPDate :=
  match splitOn ' ' v.toList with
  | [wd, d, mo, y, t, zone] =>
    match splitOn ':' t with
    | [hh, mm, ss] =>
      if wd.length = 4 ∧ wd.drop 3 = [','] ∧ zone = ['G', 'M', 'T'] then do
        let day ← parseDecimal d
        let month ← monthNumber (String.mk mo)
        let year ← parseDecimal y
        let hour ← parseDecimal hh
        let minute ← parseDecimal mm
        let second ← parseDecimal ss
        some ⟨String.mk (wd.take 3), day, month, year, hour, minute, second⟩
      else none
    | _ => none
  | _ => none

/-- Gregorian leap years. -/
def isLeapYear (y : Nat) : Bool :=
  (y % 4 == 0 && y % 100 != 0) || y % 400 == 0

/-- The number of days of month `m` (1 to 12) in year `y`. -/
def daysInMonth (y m : Nat) : Nat :=
  if m = 2 then (if isLeapYear y then 29 else 28)
  else if m = 4 ∨ m = 6 ∨ m = 9 ∨ m = 11 then 30
  else 31

/-- Days from 1 January 1970 to 1 January of year `y`. -/
def daysBeforeYear (y : Nat) : Nat :=
  ((List.range (y - 1970)).map (fun i => if isLeapYear (1970 + i) then 366 else 365)).sum

/-- Days from 1 January of year `y` to the first of month `m`. -/
def daysBeforeMonth (y m : Nat) : Nat :=
  ((List.range (m - 1)).map (fun i => daysInMonth y (i + 1))).sum

/-- Days from 1 January 1970 to the date. -/
def HTTPDate.daysSinceEpoch (d : HTTPDate) : Nat :=
  daysBeforeYear d.year + daysBeforeMonth d.year d.month + (d.day - 1)

/-- Seconds from the Unix epoch to the instant the date names, in GMT. -/
def HTTPDate.unixSeconds (d : HTTPDate) : Nat :=
  d.daysSinceEpoch * 86400 + d.hour * 3600 + d.minute * 60 + d.second

/-- The day of the week of a day count since the epoch; 1 January 1970 was a
Thursday. -/
def weekdayName (days : Nat) : String :=
  ["Thu", "Fri", "Sat", "Sun", "Mon", "Tue", "Wed"].getD (days % 7) ""

/-- The third field of an entity tag read as hexadecimal microseconds since the
Unix epoch, cut down to whole seconds. -/
def etagMtimeSeconds (v : String) : Option Nat :=
  match etagFields v with
  | some [_, _, mtime] => (parseHex mtime).map (fun us => us / 1000000)
  | _ => none

/-! ## Lemmas on the header map -/

theorem Header.lookupEntries_erase_append (l : List (String × List String)) (key k : String)
    (vs : List String) :
    Header.lookupEntries (Header.eraseKey l key ++ [(key, vs)]) k =
      if k = key then some vs else Header.lookupEntries l k := by
  induction l with
  | nil =>
    by_cases hk : k = key
    · simp [Header.lookupEntries, Header.eraseKey, hk]
    · have hk2 : ¬ key = k := fun e => hk e.symm
      simp [Header.lookupEntries, Header.eraseKey, hk, hk2]
  | cons e rest ih =>
    by_cases he : e.1 = key
    · by_cases hk : k = key
      · simpa [Header.eraseKey, he, hk] using ih
      · have h3 : ¬ e.1 = k := fun x => hk (x.symm.trans he)
        have h4 : ¬ key = k := fun x => hk x.symm
        simp only [hk, if_false] at ih
        simp [Header.eraseKey, Header.lookupEntries, he, hk, h4, ih]
    · by_cases hk : k = key
      · have h3 : ¬ e.1 = k := fun x => he (x.trans hk)
        simp only [hk, if_true] at ih
        simp [Header.eraseKey, Header.lookupEntries, he, hk, h3, ih]
      · simp only [hk, if_false] at ih
        by_cases h5 : e.1 = k
        · simp [Header.eraseKey, Header.lookupEntries, he, hk, h5]
        · simp [Header.eraseKey, Header.lookupEntries, he, hk, h5, ih]

theorem Header.lookup_assign (h : Header) (key k : String) (vs : List String) :
    (h.assign key vs).lookup k = if k = key then some vs else h.lookup k := by
  unfold Header.assign Header.lookup
  exact Header.lookupEntries_erase_append h.entries key k vs

theorem Header.eraseKey_append_singleton (l : List (String × List String)) (e : String × List String)
    (key : String) (hne : e.1 ≠ key) :
    Header.eraseKey (l ++ [e]) key = Header.eraseKey l key ++ [e] := by
  induction l with
  | nil => simp [Header.eraseKey, hne]
  | cons x rest ih =>
    by_cases hx : x.1 = key
    · simp [Header.eraseKey, hx, ih]
    · simp [Header.eraseKey, hx, ih]

theorem canon_keys :
    CanonicalMIMEHeaderKey "Content-Type" = "Content-Type" ∧
    CanonicalMIMEHeaderKey "Server" = "Server" ∧
    CanonicalMIMEHeaderKey "Last-Modified" = "Last-Modified" ∧
    CanonicalMIMEHeaderKey "ETag" = "Etag" ∧
    CanonicalMIMEHeaderKey "Accept-Ranges" = "Accept-Ranges" ∧
    CanonicalMIMEHeaderKey "Content-Length" = "Content-Length" ∧
    CanonicalMIMEHeaderKey "Vary" = "Vary" ∧
    CanonicalMIMEHeaderKey "X-Pad" = "X-Pad" := by
  refine ⟨?_, ?_, ?_, ?_, ?_, ?_, ?_, ?_⟩ <;> rfl

theorem afterSets_lookup (h : Header) (k : String) :
    (afterSets h).lookup k =
      if k = "X-Pad" then some ["avoid browser bug"]
      else if k = "Vary" then some ["Accept-Encoding"]
      else if k = "Content-Length" then some ["177"]
      else if k = "Accept-Ranges" then some ["bytes"]
      else if k = "Etag" then some ["\"501b29-b1-4a285ed47404a\""]
      else if k = "Last-Modified" then some ["Thu, 05 May 2011 11:46:42 GMT"]
      else if k = "Server" then some ["Apache/2.2.22 (Ubuntu)"]
      else if k = "Content-Type" then some ["text/html"]
      else h.lookup k := by
  obtain ⟨c1, c2, c3, c4, c5, c6, c7, c8⟩ := canon_keys
  simp only [afterSets, Header.Set, Header.lookup_assign, c1, c2, c3, c4, c5, c6, c7, c8]

theorem storedKeys_eq :
    storedKeys = ["Content-Type", "Server", "Last-Modified", "Etag", "Accept-Ranges",
      "Content-Length", "Vary", "X-Pad"] := by
  obtain ⟨c1, c2, c3, c4, c5, c6, c7, c8⟩ := canon_keys
  simp only [storedKeys, specHeaders, List.map, c1, c2, c3, c4, c5, c6, c7, c8]

theorem storedEntries_eq :
    storedEntries =
      [ ("Content-Type", ["text/html"]),
        ("Server", ["Apache/2.2.22 (Ubuntu)"]),
        ("Last-Modified", ["Thu, 05 May 2011 11:46:42 GMT"]),
        ("Etag", ["\"501b29-b1-4a285ed47404a\""]),
        ("Accept-Ranges", ["bytes"]),
        ("Content-Length", ["177"]),
        ("Vary", ["Accept-Encoding"]),
        ("X-Pad", ["avoid browser bug"]) ] := by
  obtain ⟨c1, c2, c3, c4, c5, c6, c7, c8⟩ := canon_keys
  simp only [storedEntries, specHeaders, List.map, c1, c2, c3, c4, c5, c6, c7, c8]

theorem afterSets_entries (h : Header) :
    (afterSets h).entries = eraseKeys h.entries storedKeys ++ storedEntries := by
  obtain ⟨c1, c2, c3, c4, c5, c6, c7, c8⟩ := canon_keys
  rw [storedKeys_eq, storedEntries_eq]
  simp only [afterSets, Header.Set, Header.assign, c1, c2, c3, c4, c5, c6, c7, c8, eraseKeys,
    List.foldl]
  repeat rw [Header.eraseKey_append_singleton _ _ _ (by decide)]
  simp

/-! ## Lemmas on the handler -/

theorem handler_unfold (g : Globals) (w : ResponseWriter) (r : Request) :
    apacheFakeHandler g w r =
      (g, ResponseWriter.Write { w with header := afterSets w.header } g.helloWorld) := by
  simp only [apacheFakeHandler, apacheFakeHandlerBody, List.foldl, Stmt.exec, afterSets]

theorem response_eq (g : Globals) (h : Header) (r : Request) :
    response g h r =
      { header := afterSets h, wroteHeader := true, status := 200, sent := afterSets h,
        written := [g.helloWorld] } := by
  simp [response, handler_unfold, ResponseWriter.Write, ResponseWriter.WriteHeader,
    ResponseWriter.fresh]

set_option maxRecDepth 100000 in
theorem helloWorld_eq_specBody : helloWorld = specBody := by decide

set_option maxRecDepth 100000 in
theorem helloWorld_length : helloWorld.length = 177 := by decide

theorem afterSets_values (h : Header) :
    (afterSets h).Values "Content-Type" = ["text/html"] ∧
    (afterSets h).Values "Server" = ["Apache/2.2.22 (Ubuntu)"] ∧
    (afterSets h).Values "Last-Modified" = ["Thu, 05 May 2011 11:46:42 GMT"] ∧
    (afterSets h).Values "ETag" = ["\"501b29-b1-4a285ed47404a\""] ∧
    (afterSets h).Values "Accept-Ranges" = ["bytes"] ∧
    (afterSets h).Values "Content-Length" = ["177"] ∧
    (afterSets h).Values "Vary" = ["Accept-Encoding"] ∧
    (afterSets h).Values "X-Pad" = ["avoid browser bug"] := by
  obtain ⟨c1, c2, c3, c4, c5, c6, c7, c8⟩ := canon_keys
  simp only [Header.Values, c1, c2, c3, c4, c5, c6, c7, c8, afterSets_lookup]
  refine ⟨?_, ?_, ?_, ?_, ?_, ?_, ?_, ?_⟩ <;> simp

theorem invocations_spec (g : Globals) (calls : List (ResponseWriter × Request)) :
    invocations g calls = (g, calls.map (fun c => (apacheFakeHandler g c.1 c.2).2)) := by
  induction calls with
  | nil => rfl
  | cons c rest ih =>
    obtain ⟨w, r⟩ := c
    have hg : (apacheFakeHandler g w r).1 = g := by rw [handler_unfold]
    simp only [invocations, hg, ih, List.map]

/-! ## The claims -/

/-- C1: the Content-Length value that the handler sets, read as a decimal
number, equals the byte length of the body it writes; the body is the payload
`helloWorld`, and both numbers are 177. -/
theorem content_length_matches_body (h : Header) (r : Request) :
    parseDecimal ((response Globals.init h r).sent.Get "Content-Length").toList =
        some (response Globals.init h r).body.length ∧
      (response Globals.init h r).body = helloWorld ∧
      helloWorld.length = 177 ∧
      parseDecimal ((response Globals.init h r).sent.Get "Content-Length").toList = some 177 := by
  have hv := (afterSets_values h).2.2.2.2.2.1
  have hb : (response Globals.init h r).body = helloWorld := by
    simp [response_eq, ResponseWriter.body, Globals.init]
  have hd : parseDecimal ((response Globals.init h r).sent.Get "Content-Length").toList
      = some 177 := by
    simp only [response_eq, Header.Get, hv, List.headD]
    rfl
  exact ⟨by rw [hd, hb, helloWorld_length], hb, helloWorld_length, hd⟩

/-- C2: for every request and every writer, the handler calls `Write` exactly
once, and the bytes it hands over are exactly the four lines of spec section 6,
each followed by one LF byte, with nothing before or after; on an uncommitted
writer they are the whole body. -/
theorem body_is_spec_text (w : ResponseWriter) (h : Header) (r : Request) :
    (apacheFakeHandler Globals.init w r).2.written = w.written ++ [specBody] ∧
      (apacheFakeHandlerBody.filter Stmt.isWrite).length = 1 ∧
      (response Globals.init h r).written = [specBody] ∧
      (response Globals.init h r).body = specBody := by
  refine ⟨?_, by decide, ?_, ?_⟩
  · simp only [handler_unfold, ResponseWriter.Write, ResponseWriter.WriteHeader, Globals.init,
      helloWorld_eq_specBody]
    cases hw : w.wroteHeader <;> simp [hw]
  · simp [response_eq, Globals.init, helloWorld_eq_specBody]
  · simp [response_eq, ResponseWriter.body, Globals.init, helloWorld_eq_specBody]

/-- C3 as stated fails: starting from the empty map, the header map after the
handler holds no value under the key `ETag`, and its entries are not the eight
entries as the spec spells them; and starting from a map with an entry under
the raw key `ETag`, that entry is still there afterwards, next to the new one
under `Etag`. -/
theorem header_entries_as_spelled_fails :
    (response Globals.init Header.empty getRoot).header.lookup "ETag" = none ∧
      (response Globals.init Header.empty getRoot).header.entries ≠
        specHeaders.map (fun e => (e.1, [e.2])) ∧
      (response Globals.init ⟨[("ETag", ["stale"])]⟩ getRoot).header.lookup "ETag" =
        some ["stale"] ∧
      (response Globals.init ⟨[("ETag", ["stale"])]⟩ getRoot).header.lookup "Etag" =
        some ["\"501b29-b1-4a285ed47404a\""] := by
  decide

/-- C3, amended: for every request and every initial header map `h`, after the
handler the map holds exactly one value under each of the eight canonical keys
(the seven names as spelled, and `Etag` for `ETag`), with the literal values of
the spec; it agrees with `h` on every other key; and starting from the empty
map its entries are exactly these eight. The same holds for the headers sent. -/
theorem header_entries_canonical (g : Globals) (h : Header) (r : Request) :
    (response g h r).header.lookup "Content-Type" = some ["text/html"] ∧
      (response g h r).header.lookup "Server" = some ["Apache/2.2.22 (Ubuntu)"] ∧
      (response g h r).header.lookup "Last-Modified" = some ["Thu, 05 May 2011 11:46:42 GMT"] ∧
      (response g h r).header.lookup "Etag" = some ["\"501b29-b1-4a285ed47404a\""] ∧
      (response g h r).header.lookup "Accept-Ranges" = some ["bytes"] ∧
      (response g h r).header.lookup "Content-Length" = some ["177"] ∧
      (response g h r).header.lookup "Vary" = some ["Accept-Encoding"] ∧
      (response g h r).header.lookup "X-Pad" = some ["avoid browser bug"] ∧
      (∀ k, k ∉ ["Content-Type", "Server", "Last-Modified", "Etag", "Accept-Ranges",
          "Content-Length", "Vary", "X-Pad"] →
        (response g h r).header.lookup k = h.lookup k) ∧
      (response g Header.empty r).header.entries =
        [ ("Content-Type", ["text/html"]),
          ("Server", ["Apache/2.2.22 (Ubuntu)"]),
          ("Last-Modified", ["Thu, 05 May 2011 11:46:42 GMT"]),
          ("Etag", ["\"501b29-b1-4a285ed47404a\""]),
          ("Accept-Ranges", ["bytes"]),
          ("Content-Length", ["177"]),
          ("Vary", ["Accept-Encoding"]),
          ("X-Pad", ["avoid browser bug"]) ] ∧
      (response g h r).sent = (response g h r).header := by
  simp only [response_eq, afterSets_lookup]
  refine ⟨by simp, by simp, by simp, by simp, by simp, by simp, by simp, by simp, ?_, ?_, ?_⟩
  · intro k hk
    simp only [List.mem_cons, List.mem_singleton, List.not_mem_nil, or_false, not_or] at hk
    obtain ⟨h1, h2, h3, h4, h5, h6, h7, h8⟩ := hk
    simp [h1, h2, h3, h4, h5, h6, h7, h8]
  · rw [afterSets_entries, storedEntries_eq, storedKeys_eq]
    rfl
  · trivial

/-- Witness for C3, amended: a stale entry under the raw key `ETag` is one of
the other keys and survives the handler. -/
theorem header_entries_canonical_witness :
    "ETag" ∉ ["Content-Type", "Server", "Last-Modified", "Etag", "Accept-Ranges",
        "Content-Length", "Vary", "X-Pad"] ∧
      (response Globals.init ⟨[("ETag", ["stale"])]⟩ getRoot).header.lookup "ETag" =
        (Header.mk [("ETag", ["stale"])]).lookup "ETag" :=
  ⟨by decide,
    (header_entries_canonical Globals.init ⟨[("ETag", ["stale"])]⟩ getRoot).2.2.2.2.2.2.2.2.1
      "ETag" (by decide)⟩

/-- C4: whatever the request and its method, an uncommitted writer leaves the
handler committed with status 200, the status implied by the first body write;
no statement of the handler sets a status or looks at the request. -/
theorem status_is_200 (g : Globals) (w : ResponseWriter) (r : Request)
    (hw : w.wroteHeader = false) :
    (apacheFakeHandler g w r).2.wroteHeader = true ∧
      (apacheFakeHandler g w r).2.status = 200 ∧
      ∀ m : String, (apacheFakeHandler g w { r with method := m }).2.status = 200 := by
  simp [handler_unfold, ResponseWriter.Write, ResponseWriter.WriteHeader, hw]

/-- Witness for C4: a HEAD request on a fresh writer. -/
theorem status_is_200_witness :
    (ResponseWriter.fresh Header.empty).wroteHeader = false ∧
      (apacheFakeHandler Globals.init (ResponseWriter.fresh Header.empty)
        ⟨"HEAD", "/", Header.empty, []⟩).2.status = 200 :=
  ⟨rfl, (status_is_200 Globals.init (ResponseWriter.fresh Header.empty)
    ⟨"HEAD", "/", Header.empty, []⟩ rfl).2.1⟩

/-- C5: the response does not depend on the request: two requests handled from
the same package state and the same writer state leave the same writer state,
hence the same header entries and the same body bytes. -/
theorem response_independent_of_request (g : Globals) (w : ResponseWriter) (r1 r2 : Request) :
    apacheFakeHandler g w r1 = apacheFakeHandler g w r2 ∧
      (apacheFakeHandler g w r1).2.sent = (apacheFakeHandler g w r2).2.sent ∧
      (apacheFakeHandler g w r1).2.header = (apacheFakeHandler g w r2).2.header ∧
      (apacheFakeHandler g w r1).2.body = (apacheFakeHandler g w r2).2.body := by
  simp only [handler_unfold, and_self]

/-- C6: the handler leaves the package variable `helloWorld` as it found it,
so in any sequence of invocations the package state never changes, every
invocation produces what it would produce as the first one, and invocations
given the same writer state all produce the same headers and body. -/
theorem handler_is_stateless (g : Globals) (w : ResponseWriter) (r : Request)
    (calls : List (ResponseWriter × Request)) (rs : List Request) :
    (apacheFakeHandler g w r).1.helloWorld = g.helloWorld ∧
      (apacheFakeHandler g w r).1 = g ∧
      (invocations g calls).1 = g ∧
      (invocations g calls).2 = calls.map (fun c => (apacheFakeHandler g c.1 c.2).2) ∧
      (invocations g (rs.map (fun q => (w, q)))).2 =
        List.replicate rs.length (apacheFakeHandler g w r).2 := by
  refine ⟨by rw [handler_unfold], by rw [handler_unfold], by rw [invocations_spec], by
    rw [invocations_spec], ?_⟩
  rw [invocations_spec]
  simp only [handler_unfold, List.map_map]
  induction rs with
  | nil => rfl
  | cons q rest ih => simp [List.replicate, ih]

/-- C7 as stated fails: starting from the empty map, no header is stored or
emitted under the name `ETag`; the entity tag is stored and emitted under
`Etag`. -/
theorem etag_name_verbatim_fails :
    "ETag" ∉ (response Globals.init Header.empty getRoot).sent.keys ∧
      "Etag" ∈ (response Globals.init Header.empty getRoot).sent.keys ∧
      "ETag: \"501b29-b1-4a285ed47404a\"\r\n" ∉
        (response Globals.init Header.empty getRoot).sent.wireLines ∧
      "Etag: \"501b29-b1-4a285ed47404a\"\r\n" ∈
        (response Globals.init Header.empty getRoot).sent.wireLines := by
  decide

/-- C7, amended: seven of the eight header names are stored and emitted byte
for byte as the spec spells them; the entity-tag header is stored and emitted
under `Etag`, the canonical form that `Header.Set` gives the key `ETag`. The
handler adds these eight entries after whatever the initial map holds under
other keys, and leaves the raw key `ETag` as it found it. -/
theorem header_names_canonical (g : Globals) (h : Header) (r : Request) :
    ["Content-Type", "Server", "Last-Modified", "Accept-Ranges", "Content-Length", "Vary",
        "X-Pad"].map CanonicalMIMEHeaderKey =
        ["Content-Type", "Server", "Last-Modified", "Accept-Ranges", "Content-Length", "Vary",
          "X-Pad"] ∧
      CanonicalMIMEHeaderKey "ETag" = "Etag" ∧
      (response g h r).sent.keys =
        (Header.mk (eraseKeys h.entries ["Content-Type", "Server", "Last-Modified", "Etag",
          "Accept-Ranges", "Content-Length", "Vary", "X-Pad"])).keys ++
          ["Content-Type", "Server", "Last-Modified", "Etag", "Accept-Ranges", "Content-Length",
            "Vary", "X-Pad"] ∧
      (response g h r).sent.wireLines =
        (Header.mk (eraseKeys h.entries ["Content-Type", "Server", "Last-Modified", "Etag",
          "Accept-Ranges", "Content-Length", "Vary", "X-Pad"])).wireLines ++
          [ "Content-Type: text/html\r\n",
            "Server: Apache/2.2.22 (Ubuntu)\r\n",
            "Last-Modified: Thu, 05 May 2011 11:46:42 GMT\r\n",
            "Etag: \"501b29-b1-4a285ed47404a\"\r\n",
            "Accept-Ranges: bytes\r\n",
            "Content-Length: 177\r\n",
            "Vary: Accept-Encoding\r\n",
            "X-Pad: avoid browser bug\r\n" ] ∧
      (response g Header.empty r).sent.wireLines =
          [ "Content-Type: text/html\r\n",
            "Server: Apache/2.2.22 (Ubuntu)\r\n",
            "Last-Modified: Thu, 05 May 2011 11:46:42 GMT\r\n",
            "Etag: \"501b29-b1-4a285ed47404a\"\r\n",
            "Accept-Ranges: bytes\r\n",
            "Content-Length: 177\r\n",
            "Vary: Accept-Encoding\r\n",
            "X-Pad: avoid browser bug\r\n" ] ∧
      (response g h r).sent.lookup "ETag" = h.lookup "ETag" := by
  obtain ⟨c1, c2, c3, c4, c5, c6, c7, c8⟩ := canon_keys
  refine ⟨?_, c4, ?_, ?_, ?_, ?_⟩
  · simp only [List.map, c1, c2, c3, c5, c6, c7, c8]
  · simp only [response_eq, Header.keys, afterSets_entries, storedKeys_eq, storedEntries_eq,
      List.map_append]
    rfl
  · simp only [response_eq, Header.wireLines, afterSets_entries, storedKeys_eq, storedEntries_eq,
      List.flatMap_append]
    rfl
  · simp only [response_eq, Header.wireLines, afterSets_entries, storedKeys_eq, storedEntries_eq]
    rfl
  · simp [response_eq, afterSets_lookup]

/-- C8: the handler body is eight header assignments followed by one body
write and nothing else. On an uncommitted writer the response is still
uncommitted after the eight assignments, the header map then already answers
each of the eight names with its value, and the write that follows commits
exactly that map, so the headers sent hold all eight. -/
theorem headers_set_before_write (g : Globals) (h : Header) (r : Request) :
    (apacheFakeHandlerBody.take 8).all Stmt.isHeaderSet = true ∧
      apacheFakeHandlerBody.drop 8 = [Stmt.writeHelloWorld] ∧
      (runFirst 8 ⟨g, ResponseWriter.fresh h⟩).w.wroteHeader = false ∧
      (runFirst 8 ⟨g, ResponseWriter.fresh h⟩).w.written = [] ∧
      specHeaders.map (fun e => (runFirst 8 ⟨g, ResponseWriter.fresh h⟩).w.header.Values e.1) =
        specHeaders.map (fun e => [e.2]) ∧
      (runFirst 9 ⟨g, ResponseWriter.fresh h⟩).w = response g h r ∧
      (response g h r).wroteHeader = true ∧
      (response g h r).sent = (runFirst 8 ⟨g, ResponseWriter.fresh h⟩).w.header ∧
      specHeaders.map (fun e => (response g h r).sent.Values e.1) =
        specHeaders.map (fun e => [e.2]) := by
  have h8 : (runFirst 8 ⟨g, ResponseWriter.fresh h⟩).w =
      { ResponseWriter.fresh h with header := afterSets h } := by
    simp only [runFirst, apacheFakeHandlerBody, List.take, List.foldl, Stmt.exec, afterSets,
      ResponseWriter.fresh]
  have h9 : (runFirst 9 ⟨g, ResponseWriter.fresh h⟩).w = response g h r := by
    simp only [runFirst, apacheFakeHandlerBody, List.take, List.foldl, Stmt.exec, response,
      apacheFakeHandler]
  obtain ⟨v1, v2, v3, v4, v5, v6, v7, v8⟩ := afterSets_values h
  refine ⟨by decide, by decide, ?_, ?_, ?_, h9, ?_, ?_, ?_⟩
  · rw [h8]; rfl
  · rw [h8]; rfl
  · rw [h8]
    simp only [specHeaders, List.map, v1, v2, v3, v4, v5, v6, v7, v8]
  · rw [response_eq]
  · rw [h8, response_eq]
  · rw [response_eq]
    simp only [specHeaders, List.map, v1, v2, v3, v4, v5, v6, v7, v8]

/-- C9: the ETag value sent is three hyphen-separated hexadecimal fields inside
double quotes, and its middle field `b1`, read as hexadecimal, is 177: the
Content-Length value read as decimal and the byte length of the body, which is
`helloWorld`. -/
theorem etag_size_field (h : Header) (r : Request) :
    (etagFields ((response Globals.init h r).sent.Get "ETag")).map (fun fs => fs.map String.mk) =
        some ["501b29", "b1", "4a285ed47404a"] ∧
      (etagFields ((response Globals.init h r).sent.Get "ETag")).map (fun fs => fs.map parseHex) =
        some [some 5249833, some 177, some 1304596002062410] ∧
      parseHex "b1".toList =
        parseDecimal ((response Globals.init h r).sent.Get "Content-Length").toList ∧
      parseHex "b1".toList = some (response Globals.init h r).body.length ∧
      (response Globals.init h r).body = helloWorld ∧
      helloWorld.length = 177 := by
  obtain ⟨_, _, _, v4, _, v6, _, _⟩ := afterSets_values h
  have hb : (response Globals.init h r).body = helloWorld := by
    simp [response_eq, ResponseWriter.body, Globals.init]
  have he : (response Globals.init h r).sent.Get "ETag" = "\"501b29-b1-4a285ed47404a\"" := by
    simp only [response_eq, Header.Get, v4, List.headD]
  have hc : (response Globals.init h r).sent.Get "Content-Length" = "177" := by
    simp only [response_eq, Header.Get, v6, List.headD]
  rw [he, hc, hb, helloWorld_length]
  exact ⟨by decide, by decide, by decide, by decide, rfl, rfl⟩

/-- C10: the last ETag field `4a285ed47404a`, read as hexadecimal microseconds
since the Unix epoch (1304596002062410) and cut down to whole seconds
(1304596002), is the instant that the Last-Modified header names, 05 May 2011
11:46:42 GMT, and that day is a Thursday, as the header says. -/
theorem etag_mtime_is_last_modified (g : Globals) (h : Header) (r : Request) :
    (etagFields ((response g h r).sent.Get "ETag")).map (fun fs => parseHex (fs.getD 2 [])) =
        some (some 1304596002062410) ∧
      etagMtimeSeconds ((response g h r).sent.Get "ETag") = some 1304596002 ∧
      parseHTTPDate ((response g h r).sent.Get "Last-Modified") =
        some ⟨"Thu", 5, 5, 2011, 11, 46, 42⟩ ∧
      (parseHTTPDate ((response g h r).sent.Get "Last-Modified")).map HTTPDate.unixSeconds =
        etagMtimeSeconds ((response g h r).sent.Get "ETag") ∧
      (parseHTTPDate ((response g h r).sent.Get "Last-Modified")).map
        (fun d => weekdayName d.daysSinceEpoch) =
        (parseHTTPDate ((response g h r).sent.Get "Last-Modified")).map HTTPDate.weekday ∧
      (parseHTTPDate ((response g h r).sent.Get "Last-Modified")).map HTTPDate.weekday =
        some "Thu" := by
  obtain ⟨_, _, v3, v4, _, _, _, _⟩ := afterSets_values h
  have he : (response g h r).sent.Get "ETag" = "\"501b29-b1-4a285ed47404a\"" := by
    simp only [response_eq, Header.Get, v4, List.headD]
  have hl : (response g h r).sent.Get "Last-Modified" = "Thu, 05 May 2011 11:46:42 GMT" := by
    simp only [response_eq, Header.Get, v3, List.headD]
  rw [he, hl]
  exact ⟨by decide, by decide, by decide, by decide, by decide, by decide⟩

end ApacheFake
